import Mathlib

/-!
Shallow embedding of `models/capsNet.py` (a CapsNet: convolutional feature
extraction, a primary capsule layer, a digit capsule layer with dynamic
routing by agreement, and a reconstruction decoder).

Tensors are modelled as total functions from `ℕ`-indices (batch, channel,
spatial position, capsule, coordinate) to `ℝ`; every PyTorch reduction
carries its explicit extent as a `Finset.range` bound.  Float arithmetic is
modelled by exact real arithmetic; since `x / 0 = 0` in `ℝ`, reachability
of a floating-point division by zero is expressed as reachability of a
zero divisor.  Runtime shapes that PyTorch reads off `t.size()` are passed
as explicit `ℕ` arguments to the corresponding `forward` functions.
-/

noncomputable section

abbrev Tensor2 : Type := ℕ → ℕ → ℝ

abbrev Tensor3 : Type := ℕ → ℕ → ℕ → ℝ

abbrev Tensor4 : Type := ℕ → ℕ → ℕ → ℕ → ℝ

/-- The `F.relu` activation, pointwise on one scalar. -/
def relu (x : ℝ) : ℝ := max x 0

/-- Line 18 of `squash`: `lengths2 = x.pow(2).sum(dim=2)`; the extent of
dim 2 is the capsule coordinate count `d`. -/
def squashLengths2 (d : ℕ) (x : Tensor3) : Tensor2 :=
  fun n i => ∑ k ∈ Finset.range d, x n i k ^ 2

/-- Line 19 of `squash`: `lengths = lengths2.sqrt()`.  This is the divisor
of the scaling factor applied on line 20. -/
def squashLengths (d : ℕ) (x : Tensor3) : Tensor2 :=
  fun n i => Real.sqrt (squashLengths2 d x n i)

/-- Lines 17-21: `squash`, i.e.
`x * (lengths2 / (1 + lengths2) / lengths).view(x.size(0), x.size(1), 1)`. -/
def squash (d : ℕ) (x : Tensor3) : Tensor3 :=
  fun n i k =>
    x n i k * (squashLengths2 d x n i / (1 + squashLengths2 d x n i) / squashLengths d x n i)

/-- The squashing nonlinearity on a single `d`-dimensional vector, stated
the way the spec describes it (used for refinement statements). -/
def squashVec (d : ℕ) (v : ℕ → ℝ) : ℕ → ℝ :=
  fun k =>
    v k * ((∑ j ∈ Finset.range d, v j ^ 2) / (1 + ∑ j ∈ Finset.range d, v j ^ 2) /
      Real.sqrt (∑ j ∈ Finset.range d, v j ^ 2))

/-- Euclidean norm of the first `d` coordinates of a vector. -/
def euclidNorm (d : ℕ) (v : ℕ → ℝ) : ℝ :=
  Real.sqrt (∑ k ∈ Finset.range d, v k ^ 2)

/-- Dot product of the first `D` coordinates of two vectors. -/
def dotProduct (D : ℕ) (x y : ℕ → ℝ) : ℝ :=
  ∑ k ∈ Finset.range D, x k * y k

/-- The `F.softmax` call of lines 33 and 43: for a 2-D input the legacy
implicit dim is 1, so softmax acts on each row; `O` is the row extent
(`output_caps`). -/
def softmaxRow (O : ℕ) (f : ℕ → ℝ) : ℕ → ℝ :=
  fun j => Real.exp (f j) / ∑ j' ∈ Finset.range O, Real.exp (f j')

/-- Module data of `AgreementRouting` (lines 24-28): the routing-logit
parameter `b` of shape `(input_caps, output_caps)` and the iteration count
(a Python int, possibly non-positive). -/
structure AgreementRouting where
  b : Tensor2
  n_iterations : ℤ

/-- Lines 25-28: `AgreementRouting.__init__`; `b` is initialised to zeros
of shape `(input_caps, output_caps)`. -/
def AgreementRouting.init (input_caps output_caps : ℕ) (n_iterations : ℤ) :
    AgreementRouting :=
  { b := fun _ _ => 0, n_iterations := n_iterations }

/-- Line 33: `c = F.softmax(self.b)` (softmax over the output-capsule
dimension of the 2-D parameter `b`). -/
def AgreementRouting.cInit (self : AgreementRouting) (O : ℕ) : Tensor2 :=
  fun i j => softmaxRow O (self.b i) j

/-- Line 34: `s = (c.unsqueeze(2) * u_predict).sum(dim=1)`; `I` is the
`input_caps` extent of dim 1. -/
def AgreementRouting.sInit (self : AgreementRouting) (I O : ℕ) (u_predict : Tensor4) :
    Tensor3 :=
  fun n j k => ∑ i ∈ Finset.range I, self.cInit O i j * u_predict n i j k

/-- Line 35: `v = squash(s)`. -/
def AgreementRouting.vInit (self : AgreementRouting) (I O D : ℕ) (u_predict : Tensor4) :
    Tensor3 :=
  squash D (self.sInit I O u_predict)

/-- The two locals rebound by the routing loop of lines 39-45: `b_batch`
(shape `(batch, input_caps, output_caps)`) and `v`
(shape `(batch, output_caps, output_dim)`). -/
structure RoutingState where
  b_batch : Tensor3
  v : Tensor3

/-- Lines 40-41: `b_batch = b_batch + (u_predict * v).sum(-1)`, with `v`
unsqueezed at dim 1 and therefore broadcast over the input capsules. -/
def routingStepB (D : ℕ) (u_predict : Tensor4) (st : RoutingState) : Tensor3 :=
  fun n i j => st.b_batch n i j + ∑ k ∈ Finset.range D, u_predict n i j k * st.v n j k

/-- Line 43: `c = F.softmax(b_batch.view(-1, output_caps)).view(-1, input_caps,
output_caps, 1)`, computed on the just-updated logits: row-wise softmax over
the output capsules. -/
def routingStepC (O D : ℕ) (u_predict : Tensor4) (st : RoutingState) : Tensor3 :=
  fun n i j => softmaxRow O (routingStepB D u_predict st n i) j

/-- Line 44: `s = (c * u_predict).sum(dim=1)`. -/
def routingStepS (I O D : ℕ) (u_predict : Tensor4) (st : RoutingState) : Tensor3 :=
  fun n j k => ∑ i ∈ Finset.range I, routingStepC O D u_predict st n i j * u_predict n i j k

/-- Lines 40-45: one full iteration of the routing loop (`v = squash(s)` on
line 45 closes the iteration). -/
def routingStep (I O D : ℕ) (u_predict : Tensor4) (st : RoutingState) : RoutingState :=
  { b_batch := routingStepB D u_predict st
    v := squash D (routingStepS I O D u_predict st) }

/-- Lines 30-47: `AgreementRouting.forward`.  `I`, `O`, `D` are the
`input_caps`, `output_caps`, `output_dim` extents that the Python code reads
off `u_predict.size()`; line 38 expands `b` over the batch. -/
def AgreementRouting.forward (self : AgreementRouting) (I O D : ℕ) (u_predict : Tensor4) :
    Tensor3 :=
  let v := self.vInit I O D u_predict
  if 0 < self.n_iterations then
    ((List.range self.n_iterations.toNat).foldl (fun st _ => routingStep I O D u_predict st)
      { b_batch := fun _ i j => self.b i j, v := v }).v
  else v

/-- Lines 30-47 once more, with the module state threaded explicitly: the
first component of the result is the module (`self`) as it stands after the
method body has run.  The body only rebinds the locals `c`, `s`, `v` and
`b_batch` (which starts as an expansion of `self.b`); no statement assigns
to `self.b`. -/
def AgreementRouting.forwardS (self : AgreementRouting) (I O D : ℕ) (u_predict : Tensor4) :
    AgreementRouting × Tensor3 :=
  let c := fun i j => softmaxRow O (self.b i) j
  let s := fun n j k => ∑ i ∈ Finset.range I, c i j * u_predict n i j k
  let v := squash D s
  if 0 < self.n_iterations then
    let st := (List.range self.n_iterations.toNat).foldl
      (fun st _ => routingStep I O D u_predict st)
      { b_batch := fun _ i j => self.b i j, v := v }
    (self, st.v)
  else (self, v)

/-- One dynamic-routing iteration exactly as the spec words it: add to each
routing logit the agreement (dot product) of the lower capsule's prediction
with the current higher-level output, recompute coupling coefficients by
softmax over the output capsules, and set the new output to the squash of
the coefficient-weighted sum of predictions. -/
def dynamicRoutingStepSpec (I O D : ℕ) (u_predict : Tensor4) (st : RoutingState) :
    RoutingState :=
  let logits : Tensor3 := fun n i j =>
    st.b_batch n i j + dotProduct D (u_predict n i j) (st.v n j)
  let coupling : Tensor3 := fun n i j => softmaxRow O (logits n i) j
  { b_batch := logits
    v := fun n j => squashVec D (fun k => ∑ i ∈ Finset.range I, coupling n i j * u_predict n i j k) }

/-- Module data of `nn.Conv2d`: the configured extents, the learned weight
of shape `(out_channels, in_channels, k, k)` and the bias. -/
structure Conv2d where
  in_channels : ℕ
  out_channels : ℕ
  kernel_size : ℕ
  stride : ℕ
  weight : Tensor4
  bias : ℕ → ℝ

/-- Strided 2-D cross-correlation, as `nn.Conv2d` computes it. -/
def Conv2d.forward (self : Conv2d) (x : Tensor4) : Tensor4 :=
  fun n o h w =>
    self.bias o + ∑ c ∈ Finset.range self.in_channels, ∑ p ∈ Finset.range self.kernel_size,
      ∑ q ∈ Finset.range self.kernel_size,
        self.weight o c p q * x n c (self.stride * h + p) (self.stride * w + q)

/-- Module data of `CapsLayer` (lines 50-63): the prediction weights of
shape `(input_caps, input_dim, output_caps * output_dim)` and the routing
module. -/
structure CapsLayer where
  input_caps : ℕ
  input_dim : ℕ
  output_caps : ℕ
  output_dim : ℕ
  weights : Tensor3
  routing_module : AgreementRouting

/-- Lines 65-75: `CapsLayer.forward`: the batched matmul
`caps_output.unsqueeze(2).matmul(self.weights)` followed by the view that
splits the flat last index into `(output_caps, output_dim)` (flat index
`j * output_dim + k`), then the routing module. -/
def CapsLayer.forward (self : CapsLayer) (caps_output : Tensor3) : Tensor3 :=
  let u_predict : Tensor4 := fun n i j k =>
    ∑ d2 ∈ Finset.range self.input_dim,
      caps_output n i d2 * self.weights i d2 (j * self.output_dim + k)
  self.routing_module.forward self.input_caps self.output_caps self.output_dim u_predict

/-- Module data of `PrimaryCapsLayer` (lines 78-84). -/
structure PrimaryCapsLayer where
  conv : Conv2d
  input_channels : ℕ
  output_caps : ℕ
  output_dim : ℕ

/-- Lines 86-104: `PrimaryCapsLayer.forward`.  `H`, `W` are the spatial
extents of the convolution output (`N, C, H, W = out.size()`).  The
`view / permute(0,1,3,4,2) / view` chain sends capsule
`i = cap * H * W + h * W + w` at coordinate `d` to conv channel
`cap * output_dim + d`, pixel `(h, w)`; finally `squash` is applied to the
capsule vectors. -/
def PrimaryCapsLayer.forward (self : PrimaryCapsLayer) (H W : ℕ) (input : Tensor4) :
    Tensor3 :=
  let out := self.conv.forward input
  let reshaped : Tensor3 := fun n i d =>
    out n (i / (H * W) * self.output_dim + d) (i / W % H) (i % W)
  squash self.output_dim reshaped

/-- Module data of `CapsNet` (lines 107-116). -/
structure CapsNet where
  conv1 : Conv2d
  primaryCaps : PrimaryCapsLayer
  digitCaps : CapsLayer

/-- Lines 108-116: `CapsNet.__init__` instantiated with the source's shape
constants: `conv1 = Conv2d(3, 256, kernel_size=9, stride=1)`,
`primaryCaps = PrimaryCapsLayer(256, 32, 8, kernel_size=9, stride=2)`,
`num_primaryCaps = 32 * 24 * 24`, and `digitCaps` mapping 8-dimensional
primary capsules to `n_classes` capsules of dimension 16. -/
def CapsNet.init (n_classes : ℕ) (routing_iterations : ℤ)
    (w1 : Tensor4) (b1 : ℕ → ℝ) (wp : Tensor4) (bp : ℕ → ℝ) (wd : Tensor3) : CapsNet :=
  { conv1 := { in_channels := 3, out_channels := 256, kernel_size := 9, stride := 1,
               weight := w1, bias := b1 }
    primaryCaps := { conv := { in_channels := 256, out_channels := 32 * 8, kernel_size := 9,
                               stride := 2, weight := wp, bias := bp }
                     input_channels := 256, output_caps := 32, output_dim := 8 }
    digitCaps := { input_caps := 32 * 24 * 24, input_dim := 8, output_caps := n_classes,
                   output_dim := 16, weights := wd,
                   routing_module := AgreementRouting.init (32 * 24 * 24) n_classes
                     routing_iterations } }

/-- Lines 118-136: `CapsNet.forward`: conv1, ReLU, primary capsules, digit
capsules, then `probs = x.pow(2).sum(dim=2).sqrt()`.  `H`, `W` are the
spatial extents of the primary convolution output. -/
def CapsNet.forward (self : CapsNet) (H W : ℕ) (input : Tensor4) : Tensor3 × Tensor2 :=
  let x1 := self.conv1.forward input
  let x2 : Tensor4 := fun n c h w => relu (x1 n c h w)
  let x3 := self.primaryCaps.forward H W x2
  let x4 := self.digitCaps.forward x3
  (x4, fun n j => Real.sqrt (∑ k ∈ Finset.range self.digitCaps.output_dim, x4 n j k ^ 2))

/-- The pipeline as the spec words it, stage by stage: convolutional
feature extraction (conv1 then ReLU), the primary capsule layer (its
convolution, the reshape to vector-valued capsules, squash), and the digit
capsule layer (per-pair linear predictions, then agreement routing). -/
def capsNetPipelineSpec (self : CapsNet) (H W : ℕ) (input : Tensor4) : Tensor3 :=
  let features : Tensor4 := fun n c h w => relu (self.conv1.forward input n c h w)
  let primary_out := self.primaryCaps.conv.forward features
  let primary_capsules := squash self.primaryCaps.output_dim
    (fun n i d =>
      primary_out n (i / (H * W) * self.primaryCaps.output_dim + d) (i / W % H) (i % W))
  let predictions : Tensor4 := fun n i j k =>
    ∑ d2 ∈ Finset.range self.digitCaps.input_dim,
      primary_capsules n i d2 * self.digitCaps.weights i d2 (j * self.digitCaps.output_dim + k)
  self.digitCaps.routing_module.forward self.digitCaps.input_caps self.digitCaps.output_caps
    self.digitCaps.output_dim predictions

/-- Module data of `nn.Linear`. -/
structure Linear where
  in_features : ℕ
  out_features : ℕ
  weight : Tensor2
  bias : ℕ → ℝ

/-- The affine map computed by `nn.Linear`. -/
def Linear.forward (self : Linear) (x : ℕ → ℝ) : ℕ → ℝ :=
  fun o => self.bias o + ∑ j ∈ Finset.range self.in_features, self.weight o j * x j

/-- Module data of `ReconstructionNet` (lines 139-146). -/
structure ReconstructionNet where
  fc1 : Linear
  fc2 : Linear
  fc3 : Linear
  n_dim : ℕ
  n_classes : ℕ

/-- Lines 140-146: `fc1 = nn.Linear(n_dim * n_classes, 1000)`,
`fc2 = nn.Linear(1000, 2000)`, `fc3 = nn.Linear(2000, 4096)`. -/
def ReconstructionNet.init (n_dim n_classes : ℕ) (w1 : Tensor2) (b1 : ℕ → ℝ)
    (w2 : Tensor2) (b2 : ℕ → ℝ) (w3 : Tensor2) (b3 : ℕ → ℝ) : ReconstructionNet :=
  { fc1 := { in_features := n_dim * n_classes, out_features := 1000, weight := w1, bias := b1 }
    fc2 := { in_features := 1000, out_features := 2000, weight := w2, bias := b2 }
    fc3 := { in_features := 2000, out_features := 4096, weight := w3, bias := b3 }
    n_dim := n_dim
    n_classes := n_classes }

/-- Lines 148-174: `ReconstructionNet.forward`.  The target mask of lines
149-154 is commented out in the source, so `target` is never read: the
whole capsule tensor is flattened by `x.view(-1, self.n_dim * self.n_classes)`
(flat index `j` decodes to capsule `j / n_dim`, coordinate `j % n_dim`) and
decoded by `fc3(relu(fc2(relu(fc1 _))))`. -/
def ReconstructionNet.forward (self : ReconstructionNet) (x : Tensor3) (target : ℕ → ℕ) :
    Tensor2 :=
  let xflat : Tensor2 := fun n j => x n (j / self.n_dim) (j % self.n_dim)
  let h1 := fun n i => relu (self.fc1.forward (xflat n) i)
  let h2 := fun n i => relu (self.fc2.forward (h1 n) i)
  fun n i => self.fc3.forward (h2 n) i

/-- Module data of `CapsNetWithReconstruction` (lines 177-181). -/
structure CapsNetWithReconstruction where
  capsnet : CapsNet
  reconstruction_net : ReconstructionNet

/-- Lines 183-191: `CapsNetWithReconstruction.forward`. -/
def CapsNetWithReconstruction.forward (self : CapsNetWithReconstruction) (H W : ℕ)
    (x : Tensor4) (target : ℕ → ℕ) : Tensor2 × Tensor2 :=
  let xp := self.capsnet.forward H W x
  let reconstruction := self.reconstruction_net.forward xp.1 target
  (reconstruction, xp.2)

/-- The decoder as the spec words it: three fully connected layers with
ReLU after the first two, applied to the flattened vector of all output
capsules. -/
def decodeAllCapsules (q : ReconstructionNet) (caps : Tensor3) : Tensor2 :=
  fun n i =>
    q.fc3.forward (fun j =>
      relu (q.fc2.forward (fun j' =>
        relu (q.fc1.forward (fun m => caps n (m / q.n_dim) (m % q.n_dim)) j')) j)) i

/-- A concrete reconstruction net with the source's layer sizes
(`n_dim = 1`, `n_classes = 2`): all biases 0, `fc1` weights 1, `fc2`
weights `1/1000`, `fc3` weights `1/2000`, so a constant capsule signal
passes through each layer with value preserved. -/
def cexReconNet : ReconstructionNet :=
  ReconstructionNet.init 1 2 (fun _ _ => 1) (fun _ => 0)
    (fun _ _ => 1 / 1000) (fun _ => 0) (fun _ _ => 1 / 2000) (fun _ => 0)

/-- A capsule tensor whose capsule 0 is the zero vector and whose capsule 1
is the constant-1 vector. -/
def cexCaps : Tensor3 := fun _ j _ => if j = 1 then 1 else 0

/-- The all-zero capsule tensor. -/
def cexCapsZero : Tensor3 := fun _ _ _ => 0

/-- A target assignment selecting capsule 0, on which `cexCaps` and
`cexCapsZero` agree. -/
def cexTarget : ℕ → ℕ := fun _ => 0

/-! ### Helper lemmas -/

theorem softmaxRow_nonneg (O : ℕ) (f : ℕ → ℝ) (j : ℕ) : 0 ≤ softmaxRow O f j :=
  div_nonneg (Real.exp_pos _).le (Finset.sum_nonneg fun _ _ => (Real.exp_pos _).le)

theorem softmaxRow_sum_one (O : ℕ) (hO : 0 < O) (f : ℕ → ℝ) :
    ∑ j ∈ Finset.range O, softmaxRow O f j = 1 := by
  unfold softmaxRow
  rw [← Finset.sum_div]
  exact div_self (ne_of_gt (Finset.sum_pos (fun _ _ => Real.exp_pos _)
    (Finset.nonempty_range_iff.mpr hO.ne')))

theorem squashLengths2_pos (d : ℕ) (x : Tensor3) (n i : ℕ)
    (h : ∃ k ∈ Finset.range d, x n i k ≠ 0) : 0 < squashLengths2 d x n i := by
  obtain ⟨k0, hk0, hne⟩ := h
  refine Finset.sum_pos' (fun k _ => sq_nonneg _) ⟨k0, hk0, ?_⟩
  exact lt_of_le_of_ne (sq_nonneg _) (Ne.symm (pow_ne_zero 2 hne))

theorem squashLengths_pos (d : ℕ) (x : Tensor3) (n i : ℕ)
    (h : ∃ k ∈ Finset.range d, x n i k ≠ 0) : 0 < squashLengths d x n i :=
  Real.sqrt_pos.mpr (squashLengths2_pos d x n i h)

theorem euclidNorm_mul_right (d : ℕ) (v : ℕ → ℝ) (a : ℝ) (ha : 0 ≤ a) :
    euclidNorm d (fun k => v k * a) = euclidNorm d v * a := by
  unfold euclidNorm
  simp only [mul_pow]
  rw [← Finset.sum_mul, Real.sqrt_mul (Finset.sum_nonneg fun k _ => sq_nonneg (v k)),
    Real.sqrt_sq ha]

theorem foldl_const_eq_iterate {α β : Type} (f : α → α) (l : List β) (a : α) :
    l.foldl (fun x _ => f x) a = f^[l.length] a := by
  induction l generalizing a with
  | nil => rfl
  | cons b t ih =>
      rw [List.foldl_cons, List.length_cons, Function.iterate_succ_apply]
      exact ih (f a)

theorem relu_zero : relu 0 = 0 := max_self 0

theorem relu_one : relu 1 = 1 := max_eq_left zero_le_one

/-! ### Claim theorems -/

/-- C1: each iteration of the routing loop in `AgreementRouting.forward`
updates the routing logits by adding the dot product (agreement) of each
lower-level capsule's prediction with the current higher-level output `v`,
recomputes coupling coefficients by softmax over the output capsules, and
sets the new output to the squash of the coefficient-weighted sum of
predictions — i.e. the loop body is exactly one step of dynamic routing by
agreement as the spec states it. -/
theorem routing_step_implements_agreement_routing (I O D : ℕ) (u_predict : Tensor4)
    (st : RoutingState) :
    routingStep I O D u_predict st = dynamicRoutingStepSpec I O D u_predict st := rfl

/-- C4: the `probs` tensor returned as the second component of
`CapsNet.forward` is, entrywise, the Euclidean norm of the corresponding
digit-capsule output vector (the first component). -/
theorem probs_are_capsule_vector_lengths (self : CapsNet) (H W : ℕ) (input : Tensor4)
    (n j : ℕ) :
    (self.forward H W input).2 n j
      = euclidNorm self.digitCaps.output_dim ((self.forward H W input).1 n j) := rfl

/-- C6: `CapsNet.forward` computes its capsule output by the pipeline
conv1 → ReLU → primary capsule layer (convolution, reshape to vector
capsules, squash) → digit capsule layer (linear predictions, agreement
routing), in exactly that order. -/
theorem capsnet_forward_is_pipeline (self : CapsNet) (H W : ℕ) (input : Tensor4) :
    (self.forward H W input).1 = capsNetPipelineSpec self H W input := rfl

/-- C8: the `target` argument of `ReconstructionNet.forward` has no
influence on the output: the masking is commented out, so the whole
flattened capsule tensor is decoded regardless of the target. -/
theorem reconstruction_target_independent (q : ReconstructionNet) (x : Tensor3)
    (t1 t2 : ℕ → ℕ) :
    q.forward x t1 = q.forward x t2 := rfl

/-- C5: `AgreementRouting.forward` is the `n_iterations.toNat`-fold
iteration of the loop body applied to the initial state (`b` expanded over
the batch, `v` the pre-loop squashed output): the routing refinement runs
exactly `n_iterations` times, and is skipped entirely (returning the
pre-loop `v`) when `n_iterations ≤ 0`, with no other control flow. -/
theorem routing_loop_runs_exactly_n_iterations (self : AgreementRouting) (I O D : ℕ)
    (u_predict : Tensor4) :
    self.forward I O D u_predict
      = ((routingStep I O D u_predict)^[self.n_iterations.toNat]
          { b_batch := fun _ i j => self.b i j, v := self.vInit I O D u_predict }).v := by
  unfold AgreementRouting.forward
  by_cases h : 0 < self.n_iterations
  · rw [if_pos h, foldl_const_eq_iterate (routingStep I O D u_predict), List.length_range]
  · have h0 : self.n_iterations.toNat = 0 := Int.toNat_of_nonpos (not_lt.mp h)
    rw [if_neg h, h0, Function.iterate_zero_apply]

/-- C10: `AgreementRouting.forward` leaves the module state unchanged: the
state-threaded rendering of the method body returns `self` (so `b` is
untouched — the per-batch logit updates live in the fresh local `b_batch`
built from an expansion of `b`), paired with the same output the pure
`forward` computes. -/
theorem routing_forward_leaves_b_unchanged (self : AgreementRouting) (I O D : ℕ)
    (u_predict : Tensor4) :
    self.forwardS I O D u_predict = (self, self.forward I O D u_predict) := by
  unfold AgreementRouting.forwardS AgreementRouting.forward
  by_cases h : 0 < self.n_iterations
  · rw [if_pos h, if_pos h]; rfl
  · rw [if_neg h, if_neg h]; rfl

/-- C2: on a non-zero capsule vector (row `(n, i)` of the dim-2 slice),
`squash` returns a positive scalar multiple of the input (direction
preserved), and the Euclidean norm of the result equals
`‖x‖² / (1 + ‖x‖²)`, which lies in `[0, 1)`. -/
theorem squash_preserves_direction_and_norm (d : ℕ) (x : Tensor3) (n i : ℕ)
    (h : ∃ k ∈ Finset.range d, x n i k ≠ 0) :
    ∃ c : ℝ, 0 < c ∧ (∀ k, squash d x n i k = c * x n i k) ∧
      euclidNorm d (squash d x n i)
        = euclidNorm d (x n i) ^ 2 / (1 + euclidNorm d (x n i) ^ 2) ∧
      0 ≤ euclidNorm d (squash d x n i) ∧ euclidNorm d (squash d x n i) < 1 := by
  have hL2 : 0 < squashLengths2 d x n i := squashLengths2_pos d x n i h
  have hL : 0 < squashLengths d x n i := squashLengths_pos d x n i h
  have hc : 0 < squashLengths2 d x n i / (1 + squashLengths2 d x n i) / squashLengths d x n i :=
    div_pos (div_pos hL2 (by linarith)) hL
  have key : euclidNorm d (squash d x n i)
      = euclidNorm d (x n i)
        * (squashLengths2 d x n i / (1 + squashLengths2 d x n i) / squashLengths d x n i) :=
    euclidNorm_mul_right d (x n i) _ hc.le
  have hval : euclidNorm d (squash d x n i)
      = squashLengths2 d x n i / (1 + squashLengths2 d x n i) := by
    rw [key, show euclidNorm d (x n i) = squashLengths d x n i from rfl, mul_comm]
    exact div_mul_cancel₀ _ hL.ne'
  refine ⟨squashLengths2 d x n i / (1 + squashLengths2 d x n i) / squashLengths d x n i,
    hc, fun k => mul_comm _ _, ?_, ?_, ?_⟩
  · rw [hval, show euclidNorm d (x n i) ^ 2 = squashLengths2 d x n i from
      Real.sq_sqrt hL2.le]
  · rw [hval]
    exact div_nonneg hL2.le (by linarith)
  · rw [hval, div_lt_one (by linarith)]
    linarith

theorem squash_preserves_direction_and_norm_witness :
    ∃ c : ℝ, 0 < c ∧ (∀ k, squash 1 (fun _ _ _ => (1:ℝ)) 0 0 k = c * 1) ∧
      euclidNorm 1 (squash 1 (fun _ _ _ => (1:ℝ)) 0 0)
        = euclidNorm 1 (fun _ => (1:ℝ)) ^ 2 / (1 + euclidNorm 1 (fun _ => (1:ℝ)) ^ 2) ∧
      0 ≤ euclidNorm 1 (squash 1 (fun _ _ _ => (1:ℝ)) 0 0) ∧
      euclidNorm 1 (squash 1 (fun _ _ _ => (1:ℝ)) 0 0) < 1 :=
  squash_preserves_direction_and_norm 1 (fun _ _ _ => 1) 0 0 ⟨0, by simp, by simp⟩

/-- C3: at both points where coupling coefficients are computed in
`AgreementRouting.forward` — `c = F.softmax(self.b)` before the loop and
`c = F.softmax(b_batch.view(-1, output_caps))...` inside each iteration —
the coefficients are a soft assignment: every entry is non-negative, and
for each lower-level capsule `i` (and batch element `n` inside the loop)
they sum to 1 over the `O` output capsules. -/
theorem coupling_coefficients_are_soft_assignments (self : AgreementRouting) (O D : ℕ)
    (u_predict : Tensor4) (st : RoutingState) (n i : ℕ) (hO : 0 < O) :
    (∀ j, 0 ≤ self.cInit O i j) ∧
    ∑ j ∈ Finset.range O, self.cInit O i j = 1 ∧
    (∀ j, 0 ≤ routingStepC O D u_predict st n i j) ∧
    ∑ j ∈ Finset.range O, routingStepC O D u_predict st n i j = 1 :=
  ⟨fun j => softmaxRow_nonneg O (self.b i) j,
    softmaxRow_sum_one O hO (self.b i),
    fun j => softmaxRow_nonneg O (routingStepB D u_predict st n i) j,
    softmaxRow_sum_one O hO (routingStepB D u_predict st n i)⟩

theorem coupling_coefficients_are_soft_assignments_witness :
    (∀ j, 0 ≤ (AgreementRouting.init 2 1 3).cInit 1 0 j) ∧
    ∑ j ∈ Finset.range 1, (AgreementRouting.init 2 1 3).cInit 1 0 j = 1 ∧
    (∀ j, 0 ≤ routingStepC 1 4 (fun _ _ _ _ => 0)
        { b_batch := fun _ _ _ => 0, v := fun _ _ _ => 0 } 0 0 j) ∧
    ∑ j ∈ Finset.range 1, routingStepC 1 4 (fun _ _ _ _ => 0)
        { b_batch := fun _ _ _ => 0, v := fun _ _ _ => 0 } 0 0 j = 1 :=
  coupling_coefficients_are_soft_assignments (AgreementRouting.init 2 1 3) 1 4
    (fun _ _ _ _ => 0) { b_batch := fun _ _ _ => 0, v := fun _ _ _ => 0 } 0 0 Nat.one_pos

/-- C9: the divisor `lengths` of `squash` is zero on any input whose
capsule vector at `(n, i)` is all-zero (so the unguarded division's error
branch is reachable there), and it is non-zero exactly under the
precondition that the capsule vector has a non-zero coordinate — i.e.
`squash` is division-safe only for inputs with non-zero capsule vectors. -/
theorem squash_divisor_zero_reachable_and_guarded (d : ℕ) (x : Tensor3) (n i : ℕ)
    (h : ∃ k ∈ Finset.range d, x n i k ≠ 0) :
    squashLengths d x n i ≠ 0 ∧ squashLengths d (fun _ _ _ => (0:ℝ)) n i = 0 := by
  constructor
  · exact (squashLengths_pos d x n i h).ne'
  · show Real.sqrt (squashLengths2 d (fun _ _ _ => (0:ℝ)) n i) = 0
    simp [squashLengths2]

theorem squash_divisor_zero_reachable_and_guarded_witness :
    squashLengths 1 (fun _ _ _ => (1:ℝ)) 0 0 ≠ 0 ∧
    squashLengths 1 (fun _ _ _ => (0:ℝ)) 0 0 = 0 :=
  squash_divisor_zero_reachable_and_guarded 1 (fun _ _ _ => 1) 0 0 ⟨0, by simp, by simp⟩

/-- C7 (counterexample): the reconstruction is NOT a function of the output
capsule selected by `target`.  With the concrete decoder `cexReconNet`, the
capsule tensors `cexCaps` and `cexCapsZero` agree on the target capsule
(capsule 0, the zero vector) yet decode to different reconstructions,
because the masking of lines 149-154 is commented out and all capsules are
decoded. -/
theorem reconstruction_not_from_target_capsule :
    ¬ ∀ (q : ReconstructionNet) (x x' : Tensor3) (target : ℕ → ℕ),
        (∀ n d2, x n (target n) d2 = x' n (target n) d2) →
        q.forward x target = q.forward x' target := by
  intro hcl
  have hagree : ∀ n d2, cexCaps n (cexTarget n) d2 = cexCapsZero n (cexTarget n) d2 := by
    intro n d2
    simp [cexCaps, cexCapsZero, cexTarget]
  have heq := congrFun (congrFun (hcl cexReconNet cexCaps cexCapsZero cexTarget hagree) 0) 0
  have hzero : cexReconNet.forward cexCapsZero cexTarget 0 0 = 0 := by
    simp [cexReconNet, ReconstructionNet.init, ReconstructionNet.forward, Linear.forward,
      cexCapsZero, relu_zero]
  have hone : cexReconNet.forward cexCaps cexTarget 0 0 = 1 := by
    norm_num [cexReconNet, ReconstructionNet.init, ReconstructionNet.forward, Linear.forward,
      cexCaps, Finset.sum_range_succ, relu_zero, relu_one, Finset.sum_const, Finset.card_range,
      nsmul_eq_mul]
  rw [hone, hzero] at heq
  exact one_ne_zero heq

/-- C7 (amended): `CapsNetWithReconstruction.forward` produces its
reconstruction by applying the decoder — three fully connected layers with
ReLU after the first two — to the flattened vector of ALL output capsules
of the capsule network; the target-based capsule selection (masking) is
commented out, so the target does not choose which capsule is decoded. -/
theorem reconstruction_decodes_all_capsules (self : CapsNetWithReconstruction) (H W : ℕ)
    (x : Tensor4) (target : ℕ → ℕ) :
    (self.forward H W x target).1
      = decodeAllCapsules self.reconstruction_net (self.capsnet.forward H W x).1 := rfl
